import Mathlib

/-!
Verification of the blob padding layer of `rust-kzg-bn254`.

The shallow embedding below translates `src/blob.rs` into Lean: bytes are
modelled as natural numbers below 256 collected in lists, the `Blob` struct
becomes a Lean structure, and the in-place mutating methods `pad_data` /
`remove_padding` become functions returning the `Result` together with the
post-state of the receiver.

The crate-internal helpers that `blob.rs` calls
(`helpers::convert_by_padding_empty_byte`,
`helpers::remove_empty_byte_from_padded_bytes`, `helpers::to_fr_array`) and
the `Polynomial` type live in source files that are not part of the checked
tree; their definitions here are modelled from the specification's padding
contract (a zero byte inserted before every 31-byte group; the final group
may be shorter) and are marked as such in their doc comments. They are
written as structural recursions so that they evaluate on concrete inputs;
the lemmas `convert_by_padding_empty_byte_cons` and
`remove_empty_byte_from_padded_bytes_cons` recover the group-by-group
description of the spec.
-/

namespace RustKZG

/-- Structural worker for `convert_by_padding_empty_byte`: the counter is the
number of data bytes still to copy before the next zero byte is inserted. -/
def convertPadAux : List Nat → Nat → List Nat
  | [], _ => []
  | x :: xs, 0 => 0 :: x :: convertPadAux xs 30
  | x :: xs, n + 1 => x :: convertPadAux xs n

/-- Modelled from the spec: `helpers::convert_by_padding_empty_byte` is not in
the checked tree. The spec's padding contract: insert a zero byte before every
31-byte group of the data; the final group may be shorter than 31 bytes
(boundary example: `[104, 105]` pads to `[0, 104, 105]`). -/
def convert_by_padding_empty_byte (data : List Nat) : List Nat :=
  convertPadAux data 0

/-- Structural worker for `remove_empty_byte_from_padded_bytes`: the counter
is the number of bytes still to keep before the next byte is stripped. -/
def removePadAux : List Nat → Nat → List Nat
  | [], _ => []
  | _ :: xs, 0 => removePadAux xs 31
  | x :: xs, n + 1 => x :: removePadAux xs n

/-- Modelled from the spec: `helpers::remove_empty_byte_from_padded_bytes` is
not in the checked tree. The spec's unpadding contract: strip the leading
padding byte from each 32-byte group (the final group may be shorter). -/
def remove_empty_byte_from_padded_bytes (data : List Nat) : List Nat :=
  removePadAux data 0

/-- The counter of `convertPadAux` copies that many bytes verbatim and then
restarts at a group boundary. -/
theorem convertPadAux_eq_take_drop (n : Nat) (data : List Nat) :
    convertPadAux data n = data.take n ++ convertPadAux (data.drop n) 0 := by
  induction n generalizing data with
  | zero => simp
  | succ n ih =>
    cases data with
    | nil => simp [convertPadAux]
    | cons x xs => simp [convertPadAux, ih xs]

/-- Group-by-group unfolding of the padding helper: a zero byte, the first
(up to) 31 data bytes, then the padding of the rest. -/
theorem convert_by_padding_empty_byte_cons (x : Nat) (xs : List Nat) :
    convert_by_padding_empty_byte (x :: xs)
      = 0 :: ((x :: xs).take 31
          ++ convert_by_padding_empty_byte ((x :: xs).drop 31)) := by
  show convertPadAux (x :: xs) 0 = _
  rw [show convertPadAux (x :: xs) 0 = 0 :: x :: convertPadAux xs 30 from rfl]
  rw [convertPadAux_eq_take_drop 30 xs]
  rfl

/-- The counter of `removePadAux` keeps that many bytes verbatim and then
restarts at a group boundary. -/
theorem removePadAux_eq_take_drop (n : Nat) (data : List Nat) :
    removePadAux data n = data.take n ++ removePadAux (data.drop n) 0 := by
  induction n generalizing data with
  | zero => simp
  | succ n ih =>
    cases data with
    | nil => simp [removePadAux]
    | cons x xs => simp [removePadAux, ih xs]

/-- Group-by-group unfolding of the unpadding helper: the leading byte of a
32-byte group is stripped, the next (up to) 31 bytes are kept. -/
theorem remove_empty_byte_from_padded_bytes_cons (x : Nat) (xs : List Nat) :
    remove_empty_byte_from_padded_bytes (x :: xs)
      = xs.take 31 ++ remove_empty_byte_from_padded_bytes (xs.drop 31) := by
  show removePadAux (x :: xs) 0 = _
  rw [show removePadAux (x :: xs) 0 = removePadAux xs 31 from rfl]
  exact removePadAux_eq_take_drop 31 xs

/-- Unpadding undoes padding: stripping the leading byte of every 32-byte
group recovers the data whose 31-byte groups were each prefixed with a zero
byte. -/
theorem remove_convert_roundtrip (data : List Nat) :
    remove_empty_byte_from_padded_bytes (convert_by_padding_empty_byte data)
      = data := by
  cases data with
  | nil => rfl
  | cons x xs =>
    rw [convert_by_padding_empty_byte_cons,
      remove_empty_byte_from_padded_bytes_cons]
    by_cases hle : (x :: xs).length ≤ 31
    · have hdrop : (x :: xs).drop 31 = [] := List.drop_eq_nil_of_le hle
      have htake : (x :: xs).take 31 = x :: xs := List.take_of_length_le hle
      rw [hdrop, htake, show convert_by_padding_empty_byte [] = [] from rfl,
        List.append_nil, htake, hdrop,
        show remove_empty_byte_from_padded_bytes [] = [] from rfl,
        List.append_nil]
    · have hlen : ((x :: xs).take 31).length = 31 := by
        rw [List.length_take]; omega
      rw [List.take_left' hlen, List.drop_left' hlen,
        remove_convert_roundtrip ((x :: xs).drop 31)]
      exact List.take_append_drop 31 (x :: xs)
termination_by data.length
decreasing_by simp [List.length_drop]; omega

/-- The `BlobError` enum of `errors.rs` as used by `blob.rs`. -/
inductive BlobError where
  | AlreadyPaddedError
  | NotPaddedError
  | GenericError (msg : String)
deriving DecidableEq, Repr

/-- The scalar-field modulus of BN254 (a 254-bit prime), per the spec's field
element description. -/
def FR_MODULUS : Nat :=
  21888242871839275222246405745257275088548364400416034343698204186575808495617

/-- Big-endian interpretation of a byte list as a natural number. -/
def bytesToNat (bs : List Nat) : Nat :=
  bs.foldl (fun acc b => acc * 256 + b % 256) 0

/-- Structural (fuel-indexed) worker for `to_fr_array`; the fuel bounds the
number of 32-byte groups still to read. -/
def toFrArrayAux : Nat → List Nat → List Nat
  | _, [] => []
  | 0, _ :: _ => []
  | fuel + 1, x :: xs =>
      (bytesToNat ((x :: xs).take 32
          ++ List.replicate (32 - ((x :: xs).take 32).length) 0) % FR_MODULUS)
        :: toFrArrayAux fuel ((x :: xs).drop 32)

/-- Modelled from the spec: `helpers::to_fr_array` is not in the checked tree.
It splits the (already padded) bytes into 32-byte groups, right-zero-pads the
final group, and interprets each group as a big-endian field element. -/
def to_fr_array (data : List Nat) : List Nat :=
  toFrArrayAux data.length data

/-- Modelled from the spec: the `Polynomial` type is not in the checked tree.
Its construction "fails with `InvalidInputLength` if the element count exceeds
the maximum supported domain size"; the cap is not given numerically, the
largest BN254 NTT domain `2^28` stands in for it. -/
def MAX_DOMAIN_SIZE : Nat := 2 ^ 28

/-- Modelled from the spec: errors of `Polynomial` construction. -/
inductive PolynomialError where
  | InvalidInputLength
deriving DecidableEq, Repr

/-- Modelled from the spec: a polynomial carries its field elements and the
logical length (the element count before domain zero-padding, as supplied by
the caller of `Polynomial::new`). -/
structure Polynomial where
  elements : List Nat
  logical_length : Nat
deriving DecidableEq, Repr

/-- Modelled from the spec: `Polynomial::new` fails with `InvalidInputLength`
when the element count exceeds the maximum supported domain size. -/
def Polynomial.new (elements : List Nat) (logical_length : Nat) :
    Except PolynomialError Polynomial :=
  if MAX_DOMAIN_SIZE < elements.length then .error .InvalidInputLength
  else .ok ⟨elements, logical_length⟩

/-- Modelled from the spec: the rendering of a `Polynomial` error used by
`map_err(|err| BlobError::GenericError(err.to_string()))` in `blob.rs`. -/
def PolynomialError.toString : PolynomialError → String
  | .InvalidInputLength => "invalid input length"

/-- The `Blob` struct of `blob.rs`. -/
structure Blob where
  blob_data : List Nat
  is_padded : Bool
  length_after_padding : Nat
deriving DecidableEq, Repr

/-- `Blob::new(blob_data, is_padded)` from `blob.rs`: `length_after_padding`
is the data length when the flag is set and `0` otherwise. -/
def Blob.new (blob_data : List Nat) (is_padded : Bool) : Blob :=
  { blob_data := blob_data
    is_padded := is_padded
    length_after_padding := if is_padded then blob_data.length else 0 }

/-- `Blob::from_bytes_and_pad` from `blob.rs`. -/
def Blob.from_bytes_and_pad (input : List Nat) : Blob :=
  { blob_data := convert_by_padding_empty_byte input
    is_padded := true
    length_after_padding := (convert_by_padding_empty_byte input).length }

/-- `Blob::pad_data` from `blob.rs`: the pair is the returned `Result`
together with the post-state of the in-place mutated receiver. -/
def Blob.pad_data (b : Blob) : Except BlobError Unit × Blob :=
  if b.is_padded then (.error .AlreadyPaddedError, b)
  else
    (.ok (),
     { blob_data := convert_by_padding_empty_byte b.blob_data
       is_padded := true
       length_after_padding := (convert_by_padding_empty_byte b.blob_data).length })

/-- `Blob::remove_padding` from `blob.rs`: the pair is the returned `Result`
together with the post-state of the in-place mutated receiver. -/
def Blob.remove_padding (b : Blob) : Except BlobError Unit × Blob :=
  if !b.is_padded then (.error .NotPaddedError, b)
  else
    (.ok (),
     { blob_data := remove_empty_byte_from_padded_bytes b.blob_data
       is_padded := false
       length_after_padding := 0 })

/-- `Blob::to_polynomial` from `blob.rs` (takes `&self`, no mutation). -/
def Blob.to_polynomial (b : Blob) : Except BlobError Polynomial :=
  if !b.is_padded then .error .NotPaddedError
  else
    match Polynomial.new (to_fr_array b.blob_data) b.length_after_padding with
    | .error e => .error (.GenericError e.toString)
    | .ok p => .ok p

/-- The spec's `Blob` invariant: `length_after_padding == data.len()` whenever
`is_padded == true`, and `0` otherwise. -/
def Blob.inv (b : Blob) : Prop :=
  b.length_after_padding = if b.is_padded then b.blob_data.length else 0

instance (b : Blob) : Decidable b.inv := by
  unfold Blob.inv; infer_instance

/-- C1: For every byte sequence `b`, constructing a blob from `b`, applying
`pad_data`, and then applying `remove_padding` restores the blob's data to
exactly `b`: both calls succeed and the final `blob_data` equals `b`. -/
theorem pad_then_unpad_restores_data (bs : List Nat) :
    ((Blob.new bs false).pad_data).1 = .ok () ∧
    ((((Blob.new bs false).pad_data).2).remove_padding).1 = .ok () ∧
    ((((Blob.new bs false).pad_data).2).remove_padding).2.blob_data = bs := by
  refine ⟨rfl, rfl, ?_⟩
  show remove_empty_byte_from_padded_bytes (convert_by_padding_empty_byte bs)
      = bs
  exact remove_convert_roundtrip bs

/-- C2: Every state-producing `Blob` operation establishes or preserves the
invariant `length_after_padding = data.len()` when `is_padded` and `= 0`
otherwise; `to_polynomial` takes `&self` and produces no new state, so it
preserves the invariant trivially. -/
theorem blob_operations_preserve_invariant (d : List Nat) (f : Bool) (b : Blob)
    (hb : b.inv) :
    (Blob.new d f).inv ∧ (Blob.from_bytes_and_pad d).inv ∧
    ((b.pad_data).2).inv ∧ ((b.remove_padding).2).inv := by
  have hb' : b.length_after_padding
      = if b.is_padded then b.blob_data.length else 0 := hb
  refine ⟨rfl, rfl, ?_, ?_⟩
  · by_cases h : b.is_padded = true
    · simp [Blob.pad_data, h, Blob.inv]
      simpa [h] using hb'
    · simp [Blob.pad_data, h, Blob.inv]
  · by_cases h : b.is_padded = true
    · simp [Blob.remove_padding, h, Blob.inv]
    · simp [Blob.remove_padding, h, Blob.inv]
      simpa [h] using hb'

theorem blob_operations_preserve_invariant_witness :
    (Blob.new [7] false).inv ∧
    ((Blob.new [1, 2] true).inv ∧ (Blob.from_bytes_and_pad [1, 2]).inv ∧
      (((Blob.new [7] false).pad_data).2).inv ∧
      (((Blob.new [7] false).remove_padding).2).inv) :=
  ⟨by decide,
   blob_operations_preserve_invariant [1, 2] true (Blob.new [7] false)
     (by decide)⟩

/-- C3 counterexample: `Blob::new` takes an explicit `is_padded` flag, and
with the flag set it does NOT produce a blob in the unpadded state, so the
claim that `new` always yields an unpadded blob fails on the code. -/
theorem new_with_flag_true_not_unpadded :
    ¬ ((Blob.new [104, 105] true).is_padded = false ∧
       (Blob.new [104, 105] true).length_after_padding = 0) := by
  decide

/-- C3 amended: `Blob::new(data, is_padded)` called with `is_padded = false`
produces a blob in the unpadded state (`is_padded` false and
`length_after_padding` 0) for every input byte sequence. -/
theorem new_false_produces_unpadded (d : List Nat) :
    (Blob.new d false).is_padded = false ∧
    (Blob.new d false).length_after_padding = 0 :=
  ⟨rfl, rfl⟩

/-- C4: `pad_data` returns `AlreadyPaddedError` iff the blob is already
padded; on an unpadded blob it succeeds, replaces the data by the zero-byte
per 31-byte-group padding, sets `is_padded`, and sets
`length_after_padding` to the padded length. -/
theorem pad_data_spec (b : Blob) :
    ((b.pad_data).1 = .error .AlreadyPaddedError ↔ b.is_padded = true) ∧
    (b.is_padded = false →
      (b.pad_data).1 = .ok () ∧
      ((b.pad_data).2).blob_data
        = convert_by_padding_empty_byte b.blob_data ∧
      ((b.pad_data).2).is_padded = true ∧
      ((b.pad_data).2).length_after_padding
        = (convert_by_padding_empty_byte b.blob_data).length) := by
  by_cases h : b.is_padded = true <;> simp [Blob.pad_data, h]

theorem pad_data_spec_witness :
    (Blob.new [104, 105] false).is_padded = false ∧
    ((Blob.new [104, 105] false).pad_data).1 = .ok () ∧
    (((Blob.new [104, 105] false).pad_data).2).blob_data
      = convert_by_padding_empty_byte [104, 105] ∧
    (((Blob.new [104, 105] false).pad_data).2).is_padded = true ∧
    (((Blob.new [104, 105] false).pad_data).2).length_after_padding
      = (convert_by_padding_empty_byte [104, 105]).length :=
  ⟨by decide, (pad_data_spec (Blob.new [104, 105] false)).2 (by decide)⟩

/-- C5: `remove_padding` returns `NotPaddedError` iff the blob is not padded;
on a padded blob it succeeds, clears `is_padded` and resets
`length_after_padding` to 0. -/
theorem remove_padding_spec (b : Blob) :
    ((b.remove_padding).1 = .error .NotPaddedError ↔ b.is_padded = false) ∧
    (b.is_padded = true →
      (b.remove_padding).1 = .ok () ∧
      ((b.remove_padding).2).is_padded = false ∧
      ((b.remove_padding).2).length_after_padding = 0) := by
  by_cases h : b.is_padded = true <;> simp [Blob.remove_padding, h]

theorem remove_padding_spec_witness :
    (Blob.from_bytes_and_pad [104, 105]).is_padded = true ∧
    ((Blob.from_bytes_and_pad [104, 105]).remove_padding).1 = .ok () ∧
    (((Blob.from_bytes_and_pad [104, 105]).remove_padding).2).is_padded
      = false ∧
    Blob.length_after_padding
      (((Blob.from_bytes_and_pad [104, 105]).remove_padding).2) = 0 :=
  ⟨by decide,
   (remove_padding_spec (Blob.from_bytes_and_pad [104, 105])).2 (by decide)⟩

/-- C6: `to_polynomial` returns `NotPaddedError` whenever the blob is not
padded; on a padded blob (whose element count fits the domain cap) it returns
the field-element encoding of the padded bytes as a polynomial whose logical
length equals `length_after_padding`. -/
theorem to_polynomial_spec (b : Blob) :
    (b.is_padded = false → b.to_polynomial = .error .NotPaddedError) ∧
    (b.is_padded = true →
      (to_fr_array b.blob_data).length ≤ MAX_DOMAIN_SIZE →
      b.to_polynomial
        = .ok ⟨to_fr_array b.blob_data, b.length_after_padding⟩) := by
  constructor
  · intro h; simp [Blob.to_polynomial, h]
  · intro h hlen
    simp [Blob.to_polynomial, h, Polynomial.new, Nat.not_lt.mpr hlen]

theorem to_polynomial_spec_witness :
    (Blob.from_bytes_and_pad [104, 105]).is_padded = true ∧
    (to_fr_array (Blob.from_bytes_and_pad [104, 105]).blob_data).length
      ≤ MAX_DOMAIN_SIZE ∧
    (Blob.from_bytes_and_pad [104, 105]).to_polynomial
      = .ok ⟨to_fr_array (Blob.from_bytes_and_pad [104, 105]).blob_data,
             (Blob.from_bytes_and_pad [104, 105]).length_after_padding⟩ :=
  ⟨by decide, by decide,
   (to_polynomial_spec (Blob.from_bytes_and_pad [104, 105])).2
     (by decide) (by decide)⟩

/-- C7: Padding the two-byte blob "hi" (bytes `[104, 105]`) yields blob data
exactly `[0, 104, 105]`, and removing the padding yields exactly
`[104, 105]`. -/
theorem hi_blob_pads_and_unpads :
    (Blob.from_bytes_and_pad [104, 105]).blob_data = [0, 104, 105] ∧
    ((Blob.from_bytes_and_pad [104, 105]).remove_padding).1 = .ok () ∧
    (((Blob.from_bytes_and_pad [104, 105]).remove_padding).2).blob_data
      = [104, 105] := by
  refine ⟨by decide, rfl, by decide⟩

/-- C8: `from_bytes_and_pad` produces, field for field, the same blob as
constructing an unpadded blob and then calling `pad_data` on it. -/
theorem from_bytes_and_pad_eq_new_then_pad (input : List Nat) :
    Blob.from_bytes_and_pad input = ((Blob.new input false).pad_data).2 := by
  simp [Blob.from_bytes_and_pad, Blob.new, Blob.pad_data]

/-- C9: When `pad_data` or `remove_padding` returns an error, the receiver is
left completely unchanged (all three fields keep their prior values). -/
theorem error_leaves_blob_unchanged (b : Blob) (e : BlobError) :
    ((b.pad_data).1 = .error e → (b.pad_data).2 = b) ∧
    ((b.remove_padding).1 = .error e → (b.remove_padding).2 = b) := by
  constructor
  · intro h
    by_cases hp : b.is_padded = true
    · simp [Blob.pad_data, hp]
    · simp [Blob.pad_data, hp] at h
  · intro h
    by_cases hp : b.is_padded = true
    · simp [Blob.remove_padding, hp] at h
    · simp [Blob.remove_padding, hp]

theorem error_leaves_blob_unchanged_witness :
    ((Blob.new [1] true).pad_data).1 = .error .AlreadyPaddedError ∧
    ((Blob.new [1] true).pad_data).2 = Blob.new [1] true ∧
    ((Blob.new [2] false).remove_padding).1 = .error .NotPaddedError ∧
    ((Blob.new [2] false).remove_padding).2 = Blob.new [2] false :=
  ⟨rfl,
   (error_leaves_blob_unchanged (Blob.new [1] true) .AlreadyPaddedError).1 rfl,
   rfl,
   (error_leaves_blob_unchanged (Blob.new [2] false) .NotPaddedError).2 rfl⟩

/-- C10: `Blob::new(d, true)` marks any byte vector as padded —
`is_padded` becomes true and `length_after_padding` becomes `d.len()` — with
no validation that `d` follows the zero-byte-per-31-byte-group convention
(the statement holds for every `d`, including structurally unpadded ones). -/
theorem new_true_marks_any_data_padded (d : List Nat) :
    (Blob.new d true).is_padded = true ∧
    (Blob.new d true).length_after_padding = d.length :=
  ⟨rfl, rfl⟩

end RustKZG
